import Mathlib

/-!
Verification of the tool-dispatch layer of the mcp-google-docs server.

The definitions below are a shallow embedding of `mcp_server/mcp_server.py`:
the tool catalog advertised by `handle_list_tools` and the dispatcher
`handle_call_tool`.  Python argument mappings become association lists of
`Value`s; Python's runtime failures on argument access (`TypeError` /
`AttributeError` on a `None` mapping, `KeyError` on a missing key,
`ValueError` raised explicitly) become a `DispatchError`.  The remote
Google-Docs service object is abstracted as a `Client` record of total
functions (the "stub collaborator" of the testable properties), and every
remote invocation the dispatcher performs is recorded, in issue order, in a
trace of `ClientCall`s.
-/

namespace McpGoogleDocs

/-- A JSON-ish argument value as it arrives in a tool-call mapping:
the catalog uses only string, number and boolean field types. -/
inductive Value where
  | str (s : String)
  | num (n : Int)
  | bool (b : Bool)
deriving DecidableEq, Repr

/-- Python `str()` / f-string rendering of a `Value`. -/
def pyStr : Value → String
  | .str s => s
  | .num n => toString n
  | .bool b => cond b "True" "False"

/-- Python f-string rendering of an `Optional[str]` (`None` prints as "None"). -/
def optRender : Option String → String
  | none => "None"
  | some s => s

/-- The argument mapping of a tool call (a Python dict). -/
def ArgMap : Type := List (String × Value)

/-- Dict lookup: first binding of the key, if any. -/
def lookupArg : List (String × Value) → String → Option Value
  | [], _ => none
  | (k, v) :: rest, key => if k = key then some v else lookupArg rest key

/-- The ways `handle_call_tool` fails before returning a result:
`noneArguments` models the `TypeError`/`AttributeError` Python raises when
the argument mapping is `None`; `keyError k` models `arguments[k]` on a
mapping without `k`; `valueError msg` models an explicit `raise ValueError`. -/
inductive DispatchError where
  | noneArguments
  | keyError (k : String)
  | valueError (msg : String)
deriving DecidableEq, Repr

/-- `arguments[k]`: `KeyError` when the key is absent. -/
def getItem (m : List (String × Value)) (k : String) : Except DispatchError Value :=
  match lookupArg m k with
  | none => .error (.keyError k)
  | some v => .ok v

/-- The document resource as the dispatcher consumes it: it only ever reads
`doc.get("documentId")` and `doc.get("revisionId")`, both `Optional[str]`. -/
structure Doc where
  documentId : Option String
  revisionId : Option String
deriving DecidableEq, Repr

/-- Modelled from the spec: a reply resource ("new reply resource with
assigned id") returned by the Client's `reply_comment`, whose implementation
file is not part of the sources; only its Python `str()` rendering reaches
the dispatcher's output. -/
structure Reply where
  id : String
  content : String
deriving DecidableEq, Repr

/-- Modelled from the spec: a comment resource ("comment resources, each with
nested replies") as returned by the Client's `read_comments`. -/
structure Comment where
  id : String
  content : String
  replies : List Reply
deriving DecidableEq, Repr

/-- The comment resource returned by the Drive `comments().create` call with
`fields="id,content,author,createdTime,modifiedTime"`. -/
structure CommentResource where
  id : String
  content : String
  author : String
  createdTime : String
  modifiedTime : String
deriving DecidableEq, Repr

/-- Python `str()` of a list, given a rendering for the elements. -/
def renderListAux {α : Type} (f : α → String) : List α → String
  | [] => ""
  | [x] => f x
  | x :: xs => f x ++ ", " ++ renderListAux f xs

/-- Python `str()` of a list: `[e1, e2, ...]`. -/
def renderList {α : Type} (f : α → String) (xs : List α) : String :=
  "[" ++ renderListAux f xs ++ "]"

/-- Modelled from the spec: Python `str()` of a reply resource dict. -/
def renderReply (r : Reply) : String :=
  "\x7b\x27id\x27: \x27" ++ r.id ++ "\x27, \x27content\x27: \x27" ++ r.content ++ "\x27\x7d"

/-- Modelled from the spec: Python `str()` of a comment resource dict. -/
def renderComment (c : Comment) : String :=
  "\x7b\x27id\x27: \x27" ++ c.id ++ "\x27, \x27content\x27: \x27" ++ c.content ++
    "\x27, \x27replies\x27: " ++ renderList renderReply c.replies ++ "\x7d"

/-- Python `str()` of the created-comment resource dict. -/
def renderCommentResource (c : CommentResource) : String :=
  "\x7b\x27id\x27: \x27" ++ c.id ++ "\x27, \x27content\x27: \x27" ++ c.content ++
    "\x27, \x27author\x27: \x27" ++ c.author ++ "\x27, \x27createdTime\x27: \x27" ++
    c.createdTime ++ "\x27, \x27modifiedTime\x27: \x27" ++ c.modifiedTime ++ "\x27\x7d"

/-- One Google-Docs `batchUpdate` sub-request as the dispatcher builds it
(values are passed through from the argument mapping unconverted). -/
inductive EditRequest where
  | insertText (index : Value) (text : Value)
  | replaceAllText (containsText_text : Value) (containsText_matchCase : Value)
      (replaceText : Value)
  | deleteContentRange (startIndex : Value) (endIndex : Value)
deriving DecidableEq, Repr

/-- One remote invocation issued by the dispatcher, recorded in issue order. -/
inductive ClientCall where
  | create_document (title : Value)
  | edit_document (documentId : Value) (requests : List EditRequest)
  | read_comments (documentId : Value)
  | reply_comment (documentId : Value) (commentId : Value) (reply : Value)
  | read_document_text (documentId : Value)
  | read_document (documentId : Value)
  | comments_create (fileId : Value) (content : Value) (anchor : String)
deriving DecidableEq, Repr

/-- The stub collaborator: the Google-Docs service facade as the dispatcher
sees it, one total function per remote operation it invokes.  Structured
results are the parts the dispatcher reads; `edit_document` yields the
Python `str()` rendering of the batch-update response, which the dispatcher
only ever interpolates into messages. -/
structure Client where
  create_document : Value → Doc
  edit_document : Value → List EditRequest → String
  read_comments : Value → List Comment
  reply_comment : Value → Value → Value → Reply
  read_document_text : Value → String
  read_document : Value → Doc
  comments_create : Value → Value → String → CommentResource

/-- The anchor string built by the dispatcher's f-string for `create-comment`:
`{'r': 'REV', 'a': [{'txt': {'o': O, 'l': L, 'ml': ML}}]}`. -/
def anchorString (rev : String) (start_offset length total_length : Value) : String :=
  "\x7b\x27r\x27: \x27" ++ rev ++ "\x27, \x27a\x27: [\x7b\x27txt\x27: \x7b\x27o\x27: " ++
    pyStr start_offset ++ ", \x27l\x27: " ++ pyStr length ++ ", \x27ml\x27: " ++
    pyStr total_length ++ "\x7d\x7d]\x7d"

/-- The result of one dispatch: either an error, or the list of text content
items returned — paired with the trace of remote calls issued on the way. -/
def DispatchResult : Type := Except DispatchError (List String) × List ClientCall

/-- Shallow embedding of `handle_call_tool` from `mcp_server/mcp_server.py`:
dispatch on the tool name, extract arguments exactly as the Python code does
(and in the same order), issue the corresponding Client calls, and render
exactly one text message on success. -/
def handle_call_tool (c : Client) (name : String) (arguments : Option ArgMap) :
    DispatchResult :=
  if name = "create-doc" then
    match arguments with
    | none => (.error .noneArguments, [])
    | some m =>
      let title := (lookupArg m "title").getD (.str "New Document")
      let doc := c.create_document title
      (.ok ["Document created at URL: https://docs.google.com/document/d/" ++
        optRender doc.documentId ++ "/edit"], [.create_document title])
  else if name = "insert-text" then
    match arguments with
    | none => (.error .noneArguments, [])
    | some m =>
      match getItem m "document_id" with
      | .error e => (.error e, [])
      | .ok document_id =>
        match getItem m "index" with
        | .error e => (.error e, [])
        | .ok index =>
          match getItem m "text" with
          | .error e => (.error e, [])
          | .ok text_to_insert =>
            let request := [EditRequest.insertText index text_to_insert]
            let _result := c.edit_document document_id request
            (.ok ["Inserted text into document " ++ pyStr document_id ++ "."],
              [.edit_document document_id request])
  else if name = "replace-text" then
    match arguments with
    | none => (.error .noneArguments, [])
    | some m =>
      match getItem m "document_id" with
      | .error e => (.error e, [])
      | .ok document_id =>
        match getItem m "search_text" with
        | .error e => (.error e, [])
        | .ok search_text =>
          match getItem m "replace_text" with
          | .error e => (.error e, [])
          | .ok replace_text =>
            let match_case := (lookupArg m "match_case").getD (.bool false)
            let request := [EditRequest.replaceAllText search_text match_case replace_text]
            let result := c.edit_document document_id request
            (.ok ["Replaced text in document " ++ pyStr document_id ++ ": " ++ result],
              [.edit_document document_id request])
  else if name = "delete-content" then
    match arguments with
    | none => (.error .noneArguments, [])
    | some m =>
      match getItem m "document_id" with
      | .error e => (.error e, [])
      | .ok document_id =>
        match getItem m "start_index" with
        | .error e => (.error e, [])
        | .ok start_index =>
          match getItem m "end_index" with
          | .error e => (.error e, [])
          | .ok end_index =>
            let request := [EditRequest.deleteContentRange start_index end_index]
            let result := c.edit_document document_id request
            (.ok ["Deleted content from document " ++ pyStr document_id ++ ": " ++ result],
              [.edit_document document_id request])
  else if name = "read-comments" then
    match arguments with
    | none => (.error .noneArguments, [])
    | some m =>
      match getItem m "document_id" with
      | .error e => (.error e, [])
      | .ok document_id =>
        let comments := c.read_comments document_id
        (.ok [renderList renderComment comments], [.read_comments document_id])
  else if name = "reply-comment" then
    match arguments with
    | none => (.error .noneArguments, [])
    | some m =>
      match getItem m "document_id" with
      | .error e => (.error e, [])
      | .ok document_id =>
        match getItem m "comment_id" with
        | .error e => (.error e, [])
        | .ok comment_id =>
          match getItem m "reply" with
          | .error e => (.error e, [])
          | .ok reply =>
            let result := c.reply_comment document_id comment_id reply
            (.ok ["Reply posted: " ++ renderReply result],
              [.reply_comment document_id comment_id reply])
  else if name = "read-doc" then
    match arguments with
    | none => (.error .noneArguments, [])
    | some m =>
      match getItem m "document_id" with
      | .error e => (.error e, [])
      | .ok document_id =>
        let text := c.read_document_text document_id
        (.ok [text], [.read_document_text document_id])
  else if name = "create-comment" then
    match arguments with
    | none => (.error .noneArguments, [])
    | some m =>
      match getItem m "document_id" with
      | .error e => (.error e, [])
      | .ok document_id =>
        match getItem m "content" with
        | .error e => (.error e, [])
        | .ok content =>
          match getItem m "start_offset" with
          | .error e => (.error e, [])
          | .ok start_offset =>
            match getItem m "length" with
            | .error e => (.error e, [])
            | .ok length =>
              let total_length := (lookupArg m "total_length").getD length
              let doc := c.read_document document_id
              match doc.revisionId with
              | none =>
                (.error (.valueError "Document revision ID not found."),
                  [.read_document document_id])
              | some rev =>
                if rev.isEmpty then
                  (.error (.valueError "Document revision ID not found."),
                    [.read_document document_id])
                else
                  let anchor_value := anchorString rev start_offset length total_length
                  let comment := c.comments_create document_id content anchor_value
                  (.ok ["Comment created: " ++ renderCommentResource comment],
                    [.read_document document_id,
                      .comments_create document_id content anchor_value])
  else
    (.error (.valueError ("Unknown tool: " ++ name)), [])

/-- One property of a tool's input schema: its JSON-schema type and the
`default` it declares, if any (descriptions and examples are elided). -/
structure PropSchema where
  type : String
  defaultVal : Option Value
deriving DecidableEq, Repr

/-- A tool's input schema: named properties plus its `required` list. -/
structure ToolSchema where
  properties : List (String × PropSchema)
  required : List String
deriving DecidableEq, Repr

/-- A tool descriptor as advertised (name and input schema; the prose
description is elided). -/
structure Tool where
  name : String
  inputSchema : ToolSchema
deriving DecidableEq, Repr

/-- Shallow embedding of `handle_list_tools` from `mcp_server/mcp_server.py`:
the advertised catalog, in source order. -/
def handle_list_tools : List Tool :=
  [ { name := "create-doc",
      inputSchema :=
        { properties := [("title", { type := "string", defaultVal := some (.str "New Document") })],
          required := [] } },
    { name := "insert-text",
      inputSchema :=
        { properties :=
            [("document_id", { type := "string", defaultVal := none }),
             ("index", { type := "number", defaultVal := none }),
             ("text", { type := "string", defaultVal := none })],
          required := ["document_id", "index", "text"] } },
    { name := "replace-text",
      inputSchema :=
        { properties :=
            [("document_id", { type := "string", defaultVal := none }),
             ("search_text", { type := "string", defaultVal := none }),
             ("replace_text", { type := "string", defaultVal := none }),
             ("match_case", { type := "boolean", defaultVal := some (.bool false) })],
          required := ["document_id", "search_text", "replace_text"] } },
    { name := "delete-content",
      inputSchema :=
        { properties :=
            [("document_id", { type := "string", defaultVal := none }),
             ("start_index", { type := "number", defaultVal := none }),
             ("end_index", { type := "number", defaultVal := none })],
          required := ["document_id", "start_index", "end_index"] } },
    { name := "read-comments",
      inputSchema :=
        { properties := [("document_id", { type := "string", defaultVal := none })],
          required := ["document_id"] } },
    { name := "reply-comment",
      inputSchema :=
        { properties :=
            [("document_id", { type := "string", defaultVal := none }),
             ("comment_id", { type := "string", defaultVal := none }),
             ("reply", { type := "string", defaultVal := none })],
          required := ["document_id", "comment_id", "reply"] } },
    { name := "read-doc",
      inputSchema :=
        { properties := [("document_id", { type := "string", defaultVal := none })],
          required := ["document_id"] } },
    { name := "create-comment",
      inputSchema :=
        { properties :=
            [("document_id", { type := "string", defaultVal := none }),
             ("content", { type := "string", defaultVal := none }),
             ("start_offset", { type := "number", defaultVal := none }),
             ("length", { type := "number", defaultVal := none }),
             ("total_length", { type := "number", defaultVal := some (.num 5) })],
          required := ["document_id", "content", "start_offset", "length"] } } ]

/-- The eight advertised tool names, in catalog order. -/
def catalogNames : List String :=
  ["create-doc", "insert-text", "replace-text", "delete-content",
   "read-comments", "reply-comment", "read-doc", "create-comment"]

/-- The required fields a tool name declares in the advertised catalog. -/
def requiredFields (name : String) : List String :=
  match handle_list_tools.find? (fun t => t.name == name) with
  | some t => t.inputSchema.required
  | none => []

/-- The declared schema default of a field of a tool, if any. -/
def schemaDefault (toolName fieldName : String) : Option Value :=
  match handle_list_tools.find? (fun t => t.name == toolName) with
  | some t =>
    match (t.inputSchema.properties.find? (fun p => p.1 == fieldName)) with
    | some p => p.2.defaultVal
    | none => none
  | none => none

/-- Spec-shape definition (from the spec's words, for comparison with the
source-derived `anchorString`): the innermost anchor object
`{txt: {o: start_offset, l: length, ml: total_length}}`. -/
structure TxtAnchor where
  o : Value
  l : Value
  ml : Value
deriving DecidableEq, Repr

/-- Spec-shape definition: the anchor payload `{r: revision_id, a: [...]}`. -/
structure AnchorPayload where
  r : String
  a : List TxtAnchor
deriving DecidableEq, Repr

/-- Rendering of the spec-shape `txt` object with its exact field names. -/
def TxtAnchor.render (t : TxtAnchor) : String :=
  "\x7b\x27txt\x27: \x7b\x27o\x27: " ++ pyStr t.o ++ ", \x27l\x27: " ++ pyStr t.l ++
    ", \x27ml\x27: " ++ pyStr t.ml ++ "\x7d\x7d"

/-- Rendering of the spec-shape anchor payload with its exact field names. -/
def AnchorPayload.render (p : AnchorPayload) : String :=
  "\x7b\x27r\x27: \x27" ++ p.r ++ "\x27, \x27a\x27: " ++
    renderList TxtAnchor.render p.a ++ "\x7d"

/-- Spec-shape definition (from §4.2 of the spec, for comparison with the
source-derived catalog): tool name, required fields, optional fields. -/
def specCatalog : List (String × List String × List String) :=
  [ ("create-doc", ([], ["title"])),
    ("insert-text", (["document_id", "index", "text"], [])),
    ("replace-text", (["document_id", "search_text", "replace_text"], ["match_case"])),
    ("delete-content", (["document_id", "start_index", "end_index"], [])),
    ("read-comments", (["document_id"], [])),
    ("reply-comment", (["document_id", "comment_id", "reply"], [])),
    ("read-doc", (["document_id"], [])),
    ("create-comment",
      (["document_id", "content", "start_offset", "length"], ["total_length"])) ]

/-- The optional (non-required) property names of an advertised tool. -/
def optionalFieldsOf (t : Tool) : List String :=
  (t.inputSchema.properties.map Prod.fst).filter
    (fun k => !(t.inputSchema.required.contains k))

/-- A fixed document resource for stub collaborators. -/
def stubDoc : Doc := { documentId := some "NEWDOC", revisionId := some "REV1" }

/-- An inert stub Client used to instantiate universally quantified theorems. -/
def stubClient : Client where
  create_document _ := stubDoc
  edit_document _ _ := "EDITRESULT"
  read_comments _ := [{ id := "CMA", content := "first", replies := [] }]
  reply_comment _ _ _ := { id := "REPLY1", content := "replied" }
  read_document_text _ := "hello"
  read_document _ := stubDoc
  comments_create _ _ _ :=
    { id := "CM1", content := "cc", author := "au", createdTime := "t1", modifiedTime := "t2" }

/-- A stub Client whose documents carry no revision id. -/
def stubClientNoRev : Client :=
  { stubClient with read_document := fun _ => { documentId := some "NEWDOC", revisionId := none } }

/-- Python truthiness of an `Optional[str]`: `None` and `""` are falsy. -/
def pyTruthyStr : Option String → Bool
  | none => false
  | some s => !s.isEmpty

/-- C10: for every tool name in the catalog — including create-doc, which has
no required fields — invoking the dispatcher with an absent (`None`) argument
mapping fails before any Client call is issued: the result is the
none-arguments error and the call trace is empty. -/
theorem none_arguments_rejected (c : Client) (name : String) (h : name ∈ catalogNames) :
    handle_call_tool c name none = (.error .noneArguments, []) := by
  fin_cases h <;> rfl

/-- Witness for C10 at the concrete tool name "create-doc". -/
theorem none_arguments_rejected_witness :
    handle_call_tool stubClient "create-doc" none = (.error .noneArguments, []) :=
  none_arguments_rejected stubClient "create-doc" (by simp [catalogNames])

/-- C5: for every tool name not in the catalog, dispatching fails with the
"Unknown tool" error and issues zero Client calls. -/
theorem unknown_tool_rejected (c : Client) (name : String) (args : Option ArgMap)
    (h : name ∉ catalogNames) :
    handle_call_tool c name args =
      (.error (.valueError ("Unknown tool: " ++ name)), []) := by
  simp only [catalogNames, List.mem_cons, List.not_mem_nil, or_false, not_or] at h
  obtain ⟨h1, h2, h3, h4, h5, h6, h7, h8⟩ := h
  simp [handle_call_tool, h1, h2, h3, h4, h5, h6, h7, h8]

/-- Witness for C5 at the concrete unknown tool name "bogus". -/
theorem unknown_tool_rejected_witness :
    handle_call_tool stubClient "bogus" none =
      (.error (.valueError "Unknown tool: bogus"), []) :=
  unknown_tool_rejected stubClient "bogus" none (by simp [catalogNames])

/-- C2: for every create-comment invocation with its required fields present,
the first Client call issued is a read_document on the given document id; and
when the document read back carries no resolvable revision id (absent or
empty), the dispatch fails with the precondition `ValueError` and the trace
contains only that read_document — no comment-creation call is issued. -/
theorem create_comment_requires_revision (c : Client) (m : ArgMap)
    (did content so len : Value)
    (h1 : lookupArg m "document_id" = some did)
    (h2 : lookupArg m "content" = some content)
    (h3 : lookupArg m "start_offset" = some so)
    (h4 : lookupArg m "length" = some len) :
    (handle_call_tool c "create-comment" (some m)).2.head? =
      some (.read_document did) ∧
    (pyTruthyStr (c.read_document did).revisionId = false →
      handle_call_tool c "create-comment" (some m) =
        (.error (.valueError "Document revision ID not found."),
          [.read_document did])) := by
  constructor
  · rcases hrev : (c.read_document did).revisionId with _ | rev
    · simp [handle_call_tool, getItem, h1, h2, h3, h4, hrev]
    · by_cases hemp : rev.isEmpty <;>
        simp [handle_call_tool, getItem, h1, h2, h3, h4, hrev, hemp]
  · intro hfalse
    rcases hrev : (c.read_document did).revisionId with _ | rev
    · simp [handle_call_tool, getItem, h1, h2, h3, h4, hrev]
    · rw [hrev] at hfalse
      simp only [pyTruthyStr, Bool.not_eq_false'] at hfalse
      simp [handle_call_tool, getItem, h1, h2, h3, h4, hrev, hfalse]

/-- Witness for C2: a concrete invocation against a stub whose document has
no revision id fails with the precondition error after exactly one
read_document call. -/
theorem create_comment_requires_revision_witness :
    (handle_call_tool stubClientNoRev "create-comment"
        (some [("document_id", .str "D"), ("content", .str "note"),
               ("start_offset", .num 2), ("length", .num 3)])).2.head? =
      some (.read_document (.str "D")) ∧
    handle_call_tool stubClientNoRev "create-comment"
        (some [("document_id", .str "D"), ("content", .str "note"),
               ("start_offset", .num 2), ("length", .num 3)]) =
      (.error (.valueError "Document revision ID not found."),
        [.read_document (.str "D")]) := by
  have h := create_comment_requires_revision stubClientNoRev
    [("document_id", .str "D"), ("content", .str "note"),
     ("start_offset", .num 2), ("length", .num 3)]
    (.str "D") (.str "note") (.num 2) (.num 3) rfl rfl rfl rfl
  exact ⟨h.1, h.2 rfl⟩

/-- C3: every successful create-comment dispatch issues exactly a
read_document followed by the comment-creation call, and the anchor sent to
the comment-creation call is exactly the rendering of the payload
`{r: revision_id, a: [{txt: {o: start_offset, l: length, ml: total_length}}]}`
— with exactly these field names — where `revision_id` is the value read from
the document by the immediately preceding read_document. -/
theorem create_comment_anchor_shape (c : Client) (m : ArgMap)
    (did content so len : Value) (rev : String)
    (h1 : lookupArg m "document_id" = some did)
    (h2 : lookupArg m "content" = some content)
    (h3 : lookupArg m "start_offset" = some so)
    (h4 : lookupArg m "length" = some len)
    (hrev : (c.read_document did).revisionId = some rev)
    (hne : rev.isEmpty = false) :
    handle_call_tool c "create-comment" (some m) =
      (.ok ["Comment created: " ++ renderCommentResource
          (c.comments_create did content
            (anchorString rev so len ((lookupArg m "total_length").getD len)))],
       [.read_document did,
        .comments_create did content
          (anchorString rev so len ((lookupArg m "total_length").getD len))]) ∧
    anchorString rev so len ((lookupArg m "total_length").getD len) =
      (AnchorPayload.mk rev
        [TxtAnchor.mk so len ((lookupArg m "total_length").getD len)]).render := by
  constructor
  · simp [handle_call_tool, getItem, h1, h2, h3, h4, hrev, hne]
  · have hfold : ∀ x : String,
        ("\x27, \x27a\x27: " : String) ++ ("[" ++ x) = "\x27, \x27a\x27: [" ++ x := by
      intro x
      simp [← String.append_assoc]
    have hfold2 : ∀ x : String,
        ("\x27, \x27a\x27: [" : String) ++ ("\x7b\x27txt\x27: \x7b\x27o\x27: " ++ x) =
          "\x27, \x27a\x27: [\x7b\x27txt\x27: \x7b\x27o\x27: " ++ x := by
      intro x
      simp [← String.append_assoc]
    simp [anchorString, AnchorPayload.render, TxtAnchor.render, renderList,
      renderListAux, String.append_assoc, hfold, hfold2]

/-- Witness for C3 at a concrete invocation against the stub Client. -/
theorem create_comment_anchor_shape_witness :
    handle_call_tool stubClient "create-comment"
        (some [("document_id", .str "D"), ("content", .str "note"),
               ("start_offset", .num 2), ("length", .num 3),
               ("total_length", .num 9)]) =
      (.ok ["Comment created: " ++ renderCommentResource
          (stubClient.comments_create (.str "D") (.str "note")
            (anchorString "REV1" (.num 2) (.num 3) (.num 9)))],
       [.read_document (.str "D"),
        .comments_create (.str "D") (.str "note")
          (anchorString "REV1" (.num 2) (.num 3) (.num 9))]) ∧
    anchorString "REV1" (.num 2) (.num 3) (.num 9) =
      (AnchorPayload.mk "REV1" [TxtAnchor.mk (.num 2) (.num 3) (.num 9)]).render :=
  create_comment_anchor_shape stubClient
    [("document_id", .str "D"), ("content", .str "note"),
     ("start_offset", .num 2), ("length", .num 3), ("total_length", .num 9)]
    (.str "D") (.str "note") (.num 2) (.num 3) "REV1"
    rfl rfl rfl rfl rfl rfl

/-- C8: every replace-text dispatch with its required fields present issues
exactly one edit_document call carrying exactly one replaceAllText request
whose containsText.text is the search_text argument, whose
containsText.matchCase is the match_case argument (defaulting to false when
absent), and whose replaceText is the replace_text argument. -/
theorem replace_text_translation (c : Client) (m : ArgMap)
    (did st rt : Value)
    (h1 : lookupArg m "document_id" = some did)
    (h2 : lookupArg m "search_text" = some st)
    (h3 : lookupArg m "replace_text" = some rt) :
    handle_call_tool c "replace-text" (some m) =
      (.ok ["Replaced text in document " ++ pyStr did ++ ": " ++
          c.edit_document did
            [.replaceAllText st ((lookupArg m "match_case").getD (.bool false)) rt]],
       [.edit_document did
          [.replaceAllText st ((lookupArg m "match_case").getD (.bool false)) rt]]) := by
  simp [handle_call_tool, getItem, h1, h2, h3]

/-- Witness for C8 at a concrete invocation (match_case omitted, so the
request carries matchCase false). -/
theorem replace_text_translation_witness :
    handle_call_tool stubClient "replace-text"
        (some [("document_id", .str "D"), ("search_text", .str "foo"),
               ("replace_text", .str "BAR")]) =
      (.ok ["Replaced text in document D: EDITRESULT"],
       [.edit_document (.str "D")
          [.replaceAllText (.str "foo") (.bool false) (.str "BAR")]]) := by
  have h := replace_text_translation stubClient
    [("document_id", .str "D"), ("search_text", .str "foo"),
     ("replace_text", .str "BAR")]
    (.str "D") (.str "foo") (.str "BAR") rfl rfl rfl
  simpa [stubClient, pyStr] using h

/-- C7 counterexample: at a create-comment invocation omitting total_length
with length 7, the anchor's ml value is 7 (the length), while the advertised
schema declares the fixed default 5 for total_length — so the schema does not
declare "default = length" as the claim states. -/
theorem total_length_schema_default_counterexample :
    schemaDefault "create-comment" "total_length" = some (.num 5) ∧
    (handle_call_tool stubClient "create-comment"
        (some [("document_id", .str "D"), ("content", .str "note"),
               ("start_offset", .num 2), ("length", .num 7)])).2 =
      [.read_document (.str "D"),
       .comments_create (.str "D") (.str "note")
         (anchorString "REV1" (.num 2) (.num 7) (.num 7))] ∧
    (Value.num 7 : Value) ≠ Value.num 5 := by
  refine ⟨rfl, rfl, by decide⟩

/-- C7 amended: for every create-comment invocation whose argument mapping
omits total_length, the value used for the anchor's ml field equals the
supplied length argument (the runtime default is the length); the advertised
schema declares total_length optional (it is not in the required list), but
with the fixed literal default 5 rather than a default equal to length. -/
theorem total_length_defaults_to_length (c : Client) (m : ArgMap)
    (did content so len : Value) (rev : String)
    (h1 : lookupArg m "document_id" = some did)
    (h2 : lookupArg m "content" = some content)
    (h3 : lookupArg m "start_offset" = some so)
    (h4 : lookupArg m "length" = some len)
    (hnotl : lookupArg m "total_length" = none)
    (hrev : (c.read_document did).revisionId = some rev)
    (hne : rev.isEmpty = false) :
    (handle_call_tool c "create-comment" (some m)).2 =
      [.read_document did,
       .comments_create did content (anchorString rev so len len)] ∧
    "total_length" ∉ requiredFields "create-comment" ∧
    schemaDefault "create-comment" "total_length" = some (.num 5) := by
  refine ⟨?_, by simp [requiredFields, handle_list_tools], rfl⟩
  simp [handle_call_tool, getItem, h1, h2, h3, h4, hnotl, hrev, hne]

/-- Witness for the amended C7 at a concrete invocation with length 7. -/
theorem total_length_defaults_to_length_witness :
    (handle_call_tool stubClient "create-comment"
        (some [("document_id", .str "D"), ("content", .str "note"),
               ("start_offset", .num 2), ("length", .num 7)])).2 =
      [.read_document (.str "D"),
       .comments_create (.str "D") (.str "note")
         (anchorString "REV1" (.num 2) (.num 7) (.num 7))] ∧
    "total_length" ∉ requiredFields "create-comment" ∧
    schemaDefault "create-comment" "total_length" = some (.num 5) :=
  total_length_defaults_to_length stubClient
    [("document_id", .str "D"), ("content", .str "note"),
     ("start_offset", .num 2), ("length", .num 7)]
    (.str "D") (.str "note") (.num 2) (.num 7) "REV1"
    rfl rfl rfl rfl rfl rfl rfl

/-- C6: every dispatch that succeeds returns exactly one text content item
(the dispatcher's Client calls are recorded in a single ordered trace,
issued one after the other — there is no fan-out in any branch). -/
theorem success_single_text_item (c : Client) (name : String) (args : Option ArgMap)
    (msgs : List String) (h : (handle_call_tool c name args).1 = .ok msgs) :
    msgs.length = 1 := by
  unfold handle_call_tool at h
  repeat' split at h
  all_goals try simp only [] at h
  all_goals repeat' split at h
  all_goals simp at h
  all_goals subst h
  all_goals rfl

/-- Witness for C6: a concrete successful create-doc call returns one item. -/
theorem success_single_text_item_witness :
    (["Document created at URL: https://docs.google.com/document/d/NEWDOC/edit"] :
      List String).length = 1 :=
  success_single_text_item stubClient "create-doc" (some [])
    ["Document created at URL: https://docs.google.com/document/d/NEWDOC/edit"] rfl

/-- C4: the advertised catalog consists of exactly the eight tool names, in
order; each advertised tool's required fields and optional fields are exactly
those of the spec's catalog; names outside the catalog are rejected with the
"Unknown tool" error; and no name inside the catalog ever produces that
error — the dispatcher accepts exactly these eight names. -/
theorem catalog_exact :
    handle_list_tools.map Tool.name = catalogNames ∧
    handle_list_tools.map
        (fun t => (t.name, t.inputSchema.required, optionalFieldsOf t)) = specCatalog ∧
    (∀ (c : Client) (name : String) (args : Option ArgMap), name ∉ catalogNames →
      (handle_call_tool c name args).1 =
        .error (.valueError ("Unknown tool: " ++ name))) ∧
    (∀ (c : Client) (name : String) (args : Option ArgMap), name ∈ catalogNames →
      (handle_call_tool c name args).1 ≠
        .error (.valueError ("Unknown tool: " ++ name))) := by
  refine ⟨rfl, rfl, ?_, ?_⟩
  · intro c name args h
    simp only [catalogNames, List.mem_cons, List.not_mem_nil, or_false, not_or] at h
    obtain ⟨h1, h2, h3, h4, h5, h6, h7, h8⟩ := h
    simp [handle_call_tool, h1, h2, h3, h4, h5, h6, h7, h8]
  · intro c name args h
    simp only [catalogNames, List.mem_cons, List.not_mem_nil, or_false] at h
    intro hcontra
    rcases args with _ | m
    · rcases h with h | h | h | h | h | h | h | h <;> subst h <;>
        simp [handle_call_tool] at hcontra
    · rcases h with h | h | h | h | h | h | h | h <;> subst h
      · simp [handle_call_tool] at hcontra
      · rcases hd : lookupArg m "document_id" with _ | v1
        · simp [handle_call_tool, getItem, hd] at hcontra
        · rcases hi : lookupArg m "index" with _ | v2
          · simp [handle_call_tool, getItem, hd, hi] at hcontra
          · rcases ht : lookupArg m "text" with _ | v3
            · simp [handle_call_tool, getItem, hd, hi, ht] at hcontra
            · simp [handle_call_tool, getItem, hd, hi, ht] at hcontra
      · rcases hd : lookupArg m "document_id" with _ | v1
        · simp [handle_call_tool, getItem, hd] at hcontra
        · rcases hs : lookupArg m "search_text" with _ | v2
          · simp [handle_call_tool, getItem, hd, hs] at hcontra
          · rcases hr : lookupArg m "replace_text" with _ | v3
            · simp [handle_call_tool, getItem, hd, hs, hr] at hcontra
            · simp [handle_call_tool, getItem, hd, hs, hr] at hcontra
      · rcases hd : lookupArg m "document_id" with _ | v1
        · simp [handle_call_tool, getItem, hd] at hcontra
        · rcases hs : lookupArg m "start_index" with _ | v2
          · simp [handle_call_tool, getItem, hd, hs] at hcontra
          · rcases he : lookupArg m "end_index" with _ | v3
            · simp [handle_call_tool, getItem, hd, hs, he] at hcontra
            · simp [handle_call_tool, getItem, hd, hs, he] at hcontra
      · rcases hd : lookupArg m "document_id" with _ | v1
        · simp [handle_call_tool, getItem, hd] at hcontra
        · simp [handle_call_tool, getItem, hd] at hcontra
      · rcases hd : lookupArg m "document_id" with _ | v1
        · simp [handle_call_tool, getItem, hd] at hcontra
        · rcases hc : lookupArg m "comment_id" with _ | v2
          · simp [handle_call_tool, getItem, hd, hc] at hcontra
          · rcases hr : lookupArg m "reply" with _ | v3
            · simp [handle_call_tool, getItem, hd, hc, hr] at hcontra
            · simp [handle_call_tool, getItem, hd, hc, hr] at hcontra
      · rcases hd : lookupArg m "document_id" with _ | v1
        · simp [handle_call_tool, getItem, hd] at hcontra
        · simp [handle_call_tool, getItem, hd] at hcontra
      · rcases hd : lookupArg m "document_id" with _ | v1
        · simp [handle_call_tool, getItem, hd] at hcontra
        · rcases hc : lookupArg m "content" with _ | v2
          · simp [handle_call_tool, getItem, hd, hc] at hcontra
          · rcases ho : lookupArg m "start_offset" with _ | v3
            · simp [handle_call_tool, getItem, hd, hc, ho] at hcontra
            · rcases hl : lookupArg m "length" with _ | v4
              · simp [handle_call_tool, getItem, hd, hc, ho, hl] at hcontra
              · rcases hrev : (c.read_document v1).revisionId with _ | rev
                · simp [handle_call_tool, getItem, hd, hc, ho, hl, hrev] at hcontra
                · cases hemp : rev.isEmpty
                  · simp [handle_call_tool, getItem, hd, hc, ho, hl, hrev, hemp] at hcontra
                  · simp [handle_call_tool, getItem, hd, hc, ho, hl, hrev, hemp] at hcontra

/-- Witness for C4: the dispatcher rejects a concrete unknown name and does
not reject a concrete catalog name with the unknown-tool error. -/
theorem catalog_exact_witness :
    (handle_call_tool stubClient "bogus2" none).1 =
      .error (.valueError "Unknown tool: bogus2") ∧
    (handle_call_tool stubClient "read-doc" none).1 ≠
      .error (.valueError "Unknown tool: read-doc") := by
  constructor
  · have h := catalog_exact.2.2.1 stubClient "bogus2" none (by simp [catalogNames])
    simpa using h
  · have h := catalog_exact.2.2.2 stubClient "read-doc" none (by simp [catalogNames])
    simpa using h

/-- C1: for every supported tool name, dispatching with an argument mapping
that lacks one of that tool's required fields fails with a key error on some
(the first) missing required field, and the Client call trace is empty — no
partial execution, zero remote calls. -/
theorem missing_required_field_no_calls (c : Client) (name : String) (m : ArgMap)
    (hname : name ∈ catalogNames) (k : String) (hk : k ∈ requiredFields name)
    (hmiss : lookupArg m k = none) :
    ∃ kf, kf ∈ requiredFields name ∧ lookupArg m kf = none ∧
      handle_call_tool c name (some m) = (.error (.keyError kf), []) := by
  simp only [catalogNames, List.mem_cons, List.not_mem_nil, or_false] at hname
  rcases hname with h | h | h | h | h | h | h | h <;> subst h
  · exact absurd hk (by simp [requiredFields, handle_list_tools])
  · rcases hd : lookupArg m "document_id" with _ | v1
    · exact ⟨"document_id", by simp [requiredFields, handle_list_tools], hd,
        by simp [handle_call_tool, getItem, hd]⟩
    · rcases hi : lookupArg m "index" with _ | v2
      · exact ⟨"index", by simp [requiredFields, handle_list_tools], hi,
          by simp [handle_call_tool, getItem, hd, hi]⟩
      · rcases ht : lookupArg m "text" with _ | v3
        · exact ⟨"text", by simp [requiredFields, handle_list_tools], ht,
            by simp [handle_call_tool, getItem, hd, hi, ht]⟩
        · simp only [requiredFields, handle_list_tools] at hk
          fin_cases hk <;> simp_all
  · rcases hd : lookupArg m "document_id" with _ | v1
    · exact ⟨"document_id", by simp [requiredFields, handle_list_tools], hd,
        by simp [handle_call_tool, getItem, hd]⟩
    · rcases hs : lookupArg m "search_text" with _ | v2
      · exact ⟨"search_text", by simp [requiredFields, handle_list_tools], hs,
          by simp [handle_call_tool, getItem, hd, hs]⟩
      · rcases hr : lookupArg m "replace_text" with _ | v3
        · exact ⟨"replace_text", by simp [requiredFields, handle_list_tools], hr,
            by simp [handle_call_tool, getItem, hd, hs, hr]⟩
        · simp only [requiredFields, handle_list_tools] at hk
          fin_cases hk <;> simp_all
  · rcases hd : lookupArg m "document_id" with _ | v1
    · exact ⟨"document_id", by simp [requiredFields, handle_list_tools], hd,
        by simp [handle_call_tool, getItem, hd]⟩
    · rcases hs : lookupArg m "start_index" with _ | v2
      · exact ⟨"start_index", by simp [requiredFields, handle_list_tools], hs,
          by simp [handle_call_tool, getItem, hd, hs]⟩
      · rcases he : lookupArg m "end_index" with _ | v3
        · exact ⟨"end_index", by simp [requiredFields, handle_list_tools], he,
            by simp [handle_call_tool, getItem, hd, hs, he]⟩
        · simp only [requiredFields, handle_list_tools] at hk
          fin_cases hk <;> simp_all
  · rcases hd : lookupArg m "document_id" with _ | v1
    · exact ⟨"document_id", by simp [requiredFields, handle_list_tools], hd,
        by simp [handle_call_tool, getItem, hd]⟩
    · simp only [requiredFields, handle_list_tools] at hk
      fin_cases hk
      simp_all
  · rcases hd : lookupArg m "document_id" with _ | v1
    · exact ⟨"document_id", by simp [requiredFields, handle_list_tools], hd,
        by simp [handle_call_tool, getItem, hd]⟩
    · rcases hc : lookupArg m "comment_id" with _ | v2
      · exact ⟨"comment_id", by simp [requiredFields, handle_list_tools], hc,
          by simp [handle_call_tool, getItem, hd, hc]⟩
      · rcases hr : lookupArg m "reply" with _ | v3
        · exact ⟨"reply", by simp [requiredFields, handle_list_tools], hr,
            by simp [handle_call_tool, getItem, hd, hc, hr]⟩
        · simp only [requiredFields, handle_list_tools] at hk
          fin_cases hk <;> simp_all
  · rcases hd : lookupArg m "document_id" with _ | v1
    · exact ⟨"document_id", by simp [requiredFields, handle_list_tools], hd,
        by simp [handle_call_tool, getItem, hd]⟩
    · simp only [requiredFields, handle_list_tools] at hk
      fin_cases hk
      simp_all
  · rcases hd : lookupArg m "document_id" with _ | v1
    · exact ⟨"document_id", by simp [requiredFields, handle_list_tools], hd,
        by simp [handle_call_tool, getItem, hd]⟩
    · rcases hc : lookupArg m "content" with _ | v2
      · exact ⟨"content", by simp [requiredFields, handle_list_tools], hc,
          by simp [handle_call_tool, getItem, hd, hc]⟩
      · rcases ho : lookupArg m "start_offset" with _ | v3
        · exact ⟨"start_offset", by simp [requiredFields, handle_list_tools], ho,
            by simp [handle_call_tool, getItem, hd, hc, ho]⟩
        · rcases hl : lookupArg m "length" with _ | v4
          · exact ⟨"length", by simp [requiredFields, handle_list_tools], hl,
              by simp [handle_call_tool, getItem, hd, hc, ho, hl]⟩
          · simp only [requiredFields, handle_list_tools] at hk
            fin_cases hk <;> simp_all

/-- Witness for C1: a concrete insert-text call missing "index" fails with
the key error on "index" and records zero Client calls. -/
theorem missing_required_field_no_calls_witness :
    ∃ kf, kf ∈ requiredFields "insert-text" ∧
      lookupArg [("document_id", Value.str "D")] kf = none ∧
      handle_call_tool stubClient "insert-text"
          (some [("document_id", Value.str "D")]) =
        (.error (.keyError kf), []) :=
  missing_required_field_no_calls stubClient "insert-text"
    [("document_id", Value.str "D")] (by simp [catalogNames]) "index"
    (by simp [requiredFields, handle_list_tools]) rfl

/-- `sub` occurs as a contiguous substring of `hay`. -/
def containsSub (hay sub : String) : Prop := sub.data <:+: hay.data

theorem containsSub_refl (s : String) : containsSub s s := List.infix_refl _

theorem containsSub_app_left (a b sub : String) (h : containsSub a sub) :
    containsSub (a ++ b) sub := by
  obtain ⟨s, t, hst⟩ := h
  exact ⟨s, t ++ b.data, by simp [← hst, List.append_assoc]⟩

theorem containsSub_app_right (a b sub : String) (h : containsSub b sub) :
    containsSub (a ++ b) sub := by
  obtain ⟨s, t, hst⟩ := h
  exact ⟨a.data ++ s, t, by simp [← hst, List.append_assoc]⟩

theorem containsSub_trans (big mid sub : String)
    (h1 : containsSub big mid) (h2 : containsSub mid sub) : containsSub big sub :=
  List.IsInfix.trans h2 h1

/-- The rendering of a list member is a substring of the rendered list. -/
theorem renderList_mem_contains {α : Type} (f : α → String) (xs : List α) (x : α)
    (hx : x ∈ xs) : containsSub (renderList f xs) (f x) := by
  have haux : ∀ (ys : List α), x ∈ ys → containsSub (renderListAux f ys) (f x) := by
    intro ys
    induction ys with
    | nil => intro hmem; cases hmem
    | cons y zs ih =>
      intro hmem
      rcases List.mem_cons.mp hmem with h | h
      · subst h
        cases zs with
        | nil => exact containsSub_refl _
        | cons z ws =>
          show containsSub (f x ++ ", " ++ renderListAux f (z :: ws)) (f x)
          exact containsSub_app_left _ _ _ (containsSub_app_left _ _ _ (containsSub_refl _))
      · cases zs with
        | nil => cases h
        | cons z ws =>
          show containsSub (f y ++ ", " ++ renderListAux f (z :: ws)) (f x)
          exact containsSub_app_right _ _ _ (ih h)
  exact containsSub_app_left _ _ _ (containsSub_app_right _ _ _ (haux xs hx))

/-- A reply's id is a substring of its rendering. -/
theorem renderReply_contains_id (r : Reply) : containsSub (renderReply r) r.id := by
  refine ⟨("\x7b\x27id\x27: \x27" : String).data,
    ("\x27, \x27content\x27: \x27" ++ r.content ++ "\x27\x7d" : String).data, ?_⟩
  simp [renderReply, List.append_assoc]

/-- A comment's id is a substring of its rendering. -/
theorem renderComment_contains_id (c : Comment) :
    containsSub (renderComment c) c.id := by
  refine ⟨("\x7b\x27id\x27: \x27" : String).data,
    ("\x27, \x27content\x27: \x27" ++ c.content ++ "\x27, \x27replies\x27: " ++
      renderList renderReply c.replies ++ "\x7d" : String).data, ?_⟩
  simp [renderComment, List.append_assoc]

/-- A created comment resource's id is a substring of its rendering. -/
theorem renderCommentResource_contains_id (c : CommentResource) :
    containsSub (renderCommentResource c) c.id := by
  refine ⟨("\x7b\x27id\x27: \x27" : String).data,
    ("\x27, \x27content\x27: \x27" ++ c.content ++ "\x27, \x27author\x27: \x27" ++
      c.author ++ "\x27, \x27createdTime\x27: \x27" ++ c.createdTime ++
      "\x27, \x27modifiedTime\x27: \x27" ++ c.modifiedTime ++ "\x27\x7d" : String).data, ?_⟩
  simp [renderCommentResource, List.append_assoc]

/-- C9 counterexample: a successful read-doc tool-call returns only the
document's text — at a concrete input the single rendered message is "hello",
which does not contain the operative document id "D1", so the claim as
stated fails for the read-doc document operation. -/
theorem message_identifiers_counterexample :
    handle_call_tool stubClient "read-doc" (some [("document_id", .str "D1")]) =
      (.ok ["hello"], [.read_document_text (.str "D1")]) ∧
    ¬ containsSub "hello" "D1" := by
  refine ⟨rfl, ?_⟩
  unfold containsSub
  decide

/-- C9 amended: for every successful tool-call other than read-doc, the
single rendered text message contains the operative identifiers — the
(rendered) document id for create-doc, insert-text, replace-text and
delete-content; each returned comment's id for read-comments; the created
reply's id for reply-comment; the created comment's id for create-comment —
while read-doc returns exactly the document text, which need not contain any
identifier. -/
theorem message_contains_identifiers (c : Client) :
    (∀ m : ArgMap, ∃ msg, (handle_call_tool c "create-doc" (some m)).1 = .ok [msg] ∧
      containsSub msg
        (optRender (c.create_document
          ((lookupArg m "title").getD (.str "New Document"))).documentId)) ∧
    (∀ (m : ArgMap) (did idx txt : Value),
      lookupArg m "document_id" = some did → lookupArg m "index" = some idx →
      lookupArg m "text" = some txt →
      ∃ msg, (handle_call_tool c "insert-text" (some m)).1 = .ok [msg] ∧
        containsSub msg (pyStr did)) ∧
    (∀ (m : ArgMap) (did st rt : Value),
      lookupArg m "document_id" = some did → lookupArg m "search_text" = some st →
      lookupArg m "replace_text" = some rt →
      ∃ msg, (handle_call_tool c "replace-text" (some m)).1 = .ok [msg] ∧
        containsSub msg (pyStr did)) ∧
    (∀ (m : ArgMap) (did si ei : Value),
      lookupArg m "document_id" = some did → lookupArg m "start_index" = some si →
      lookupArg m "end_index" = some ei →
      ∃ msg, (handle_call_tool c "delete-content" (some m)).1 = .ok [msg] ∧
        containsSub msg (pyStr did)) ∧
    (∀ (m : ArgMap) (did : Value), lookupArg m "document_id" = some did →
      ∃ msg, (handle_call_tool c "read-comments" (some m)).1 = .ok [msg] ∧
        ∀ cm ∈ c.read_comments did, containsSub msg cm.id) ∧
    (∀ (m : ArgMap) (did cid rp : Value),
      lookupArg m "document_id" = some did → lookupArg m "comment_id" = some cid →
      lookupArg m "reply" = some rp →
      ∃ msg, (handle_call_tool c "reply-comment" (some m)).1 = .ok [msg] ∧
        containsSub msg (c.reply_comment did cid rp).id) ∧
    (∀ (m : ArgMap) (did content so len : Value) (rev : String),
      lookupArg m "document_id" = some did → lookupArg m "content" = some content →
      lookupArg m "start_offset" = some so → lookupArg m "length" = some len →
      (c.read_document did).revisionId = some rev → rev.isEmpty = false →
      ∃ msg, (handle_call_tool c "create-comment" (some m)).1 = .ok [msg] ∧
        containsSub msg
          (c.comments_create did content
            (anchorString rev so len ((lookupArg m "total_length").getD len))).id) ∧
    (∀ (m : ArgMap) (did : Value), lookupArg m "document_id" = some did →
      (handle_call_tool c "read-doc" (some m)).1 = .ok [c.read_document_text did]) := by
  refine ⟨?_, ?_, ?_, ?_, ?_, ?_, ?_, ?_⟩
  · intro m
    refine ⟨"Document created at URL: https://docs.google.com/document/d/" ++
      optRender (c.create_document
        ((lookupArg m "title").getD (.str "New Document"))).documentId ++ "/edit",
      by simp [handle_call_tool], ?_⟩
    exact containsSub_app_left _ _ _ (containsSub_app_right _ _ _ (containsSub_refl _))
  · intro m did idx txt h1 h2 h3
    refine ⟨"Inserted text into document " ++ pyStr did ++ ".",
      by simp [handle_call_tool, getItem, h1, h2, h3], ?_⟩
    exact containsSub_app_left _ _ _ (containsSub_app_right _ _ _ (containsSub_refl _))
  · intro m did st rt h1 h2 h3
    refine ⟨"Replaced text in document " ++ pyStr did ++ ": " ++
      c.edit_document did
        [.replaceAllText st ((lookupArg m "match_case").getD (.bool false)) rt],
      by simp [handle_call_tool, getItem, h1, h2, h3], ?_⟩
    exact containsSub_app_left _ _ _ (containsSub_app_left _ _ _
      (containsSub_app_right _ _ _ (containsSub_refl _)))
  · intro m did si ei h1 h2 h3
    refine ⟨"Deleted content from document " ++ pyStr did ++ ": " ++
      c.edit_document did [.deleteContentRange si ei],
      by simp [handle_call_tool, getItem, h1, h2, h3], ?_⟩
    exact containsSub_app_left _ _ _ (containsSub_app_left _ _ _
      (containsSub_app_right _ _ _ (containsSub_refl _)))
  · intro m did h1
    refine ⟨renderList renderComment (c.read_comments did),
      by simp [handle_call_tool, getItem, h1], ?_⟩
    intro cm hcm
    exact containsSub_trans _ _ _ (renderList_mem_contains renderComment _ cm hcm)
      (renderComment_contains_id cm)
  · intro m did cid rp h1 h2 h3
    refine ⟨"Reply posted: " ++ renderReply (c.reply_comment did cid rp),
      by simp [handle_call_tool, getItem, h1, h2, h3], ?_⟩
    exact containsSub_app_right _ _ _ (renderReply_contains_id _)
  · intro m did content so len rev h1 h2 h3 h4 hrev hne
    refine ⟨"Comment created: " ++ renderCommentResource
        (c.comments_create did content
          (anchorString rev so len ((lookupArg m "total_length").getD len))),
      by simp [handle_call_tool, getItem, h1, h2, h3, h4, hrev, hne], ?_⟩
    exact containsSub_app_right _ _ _ (renderCommentResource_contains_id _)
  · intro m did h1
    simp [handle_call_tool, getItem, h1]

/-- Witness for the amended C9 at a concrete insert-text call. -/
theorem message_contains_identifiers_witness :
    ∃ msg, (handle_call_tool stubClient "insert-text"
        (some [("document_id", .str "D1"), ("index", .num 1),
               ("text", .str "hi")])).1 = .ok [msg] ∧
      containsSub msg (pyStr (.str "D1")) :=
  (message_contains_identifiers stubClient).2.1
    [("document_id", .str "D1"), ("index", .num 1), ("text", .str "hi")]
    (.str "D1") (.num 1) (.str "hi") rfl rfl rfl

end McpGoogleDocs
